import Mathlib

/-!
A shallow embedding of `src/OpenGL/src/main.cpp`, and what it proves about it.

The program is a small Qt/OpenGL widget.  Every graphics call goes through the
`GLCall` bracket (`GLClearError(); x; ASSERT(GLLogCall(...))`), a shader program
is built from two text files, a quad is uploaded once, and each frame animates
one colour channel.

Modelling decisions:

* `float` values are exact rationals (`ℚ`): `0.05f` is `1/20`, `0.3f` is `3/10`.
* The driver is an explicit state (`GLState`: pending error queue, the calls
  issued so far, the text written to `std::cout`) together with a
  deterministic oracle (in `Env`) that decides, from the calls issued so far,
  which errors a call raises and which values it returns.
* `__debugbreak()` stops the run: a computation either returns (`Run.ret`) or
  traps (`Run.trap`), in both cases with the state reached.
* Buffers allocated with `new` and the bytes behind pointers are not modelled:
  a call that fills a buffer simply returns the text or number it wrote.
-/

namespace GLWidget

/-! ## Animation state (the function-local statics of `paintGL`) -/

/-- The two function-local statics of `paintGL`: `r` and `increment`. -/
structure AnimationState where
  r : ℚ
  increment : ℚ
  deriving DecidableEq

/-- Initial values: `static float r = 0.0f; static float increment = 0.05f;`. -/
def AnimationState.init : AnimationState := ⟨0, 1 / 20⟩

/-- Lines 164-172 of `paintGL`:
`r += increment; if (r > 1.0f) { r = 1.0f; increment = -0.05f; }
 else if (r < 0.0f) { r = 0.0f; increment = 0.05f; }`. -/
def advance (a : AnimationState) : AnimationState :=
  let r := a.r + a.increment
  if r > 1 then ⟨1, -(1 / 20)⟩
  else if r < 0 then ⟨0, 1 / 20⟩
  else ⟨r, a.increment⟩

/-- The statics after `n` executions of the update in `paintGL`. -/
def animAfter : Nat → AnimationState
  | 0 => AnimationState.init
  | n + 1 => advance (animAfter n)

/-- The update as the specification words it: add the step, and on leaving
`[0, 1]` clamp to the bound that was crossed and negate the step. -/
def specStep (a : AnimationState) : AnimationState :=
  let scalar := a.r + a.increment
  if scalar > 1 then ⟨1, -a.increment⟩
  else if scalar < 0 then ⟨0, -a.increment⟩
  else ⟨scalar, a.increment⟩

/-- Closed form of the triangle wave: the state in phase `i` of the 42-frame
period (rising for `i ≤ 20`, falling afterwards). -/
def phaseState (i : Nat) : AnimationState :=
  if i ≤ 20 then ⟨(i : ℚ) / 20, 1 / 20⟩ else ⟨((41 - i : Nat) : ℚ) / 20, -(1 / 20)⟩

/-! ## Source loader -/

/-- Model of `std::getline(stream, line)` on the unread rest of the stream.  `none`: no
character could be extracted (end of file), the call is false in the loop
test.  Otherwise the extracted line (the delimiter is consumed and dropped; a
last line that ends at end of file is still delivered) and what is left. -/
def getline : List Char → Option (List Char × List Char)
  | [] => none
  | c :: cs =>
    if c = '\n' then some ([], cs)
    else
      match getline cs with
      | none => some ([c], [])
      | some (line, rest) => some (c :: line, rest)

/-- The loop of `LoadShader`:
`while (getline(stream, line)) { whole = whole + line + '\n'; }`. -/
def LoadShader.loop (stream whole : List Char) : List Char :=
  match h : getline stream with
  | none => whole
  | some (line, rest) => LoadShader.loop rest (whole ++ line ++ ['\n'])
termination_by stream.length
decreasing_by
  have key : ∀ (s l r : List Char), getline s = some (l, r) → r.length < s.length := by
    intro s
    induction s with
    | nil => intro l r hs; simp [getline] at hs
    | cons c cs ih =>
      intro l r hs
      simp only [getline] at hs
      split at hs
      · simp only [Option.some.injEq, Prod.mk.injEq] at hs
        rw [← hs.2]; simp
      · cases hg : getline cs with
        | none =>
          rw [hg] at hs
          simp only [Option.some.injEq, Prod.mk.injEq] at hs
          rw [← hs.2]; simp
        | some p =>
          rw [hg] at hs
          simp only [Option.some.injEq, Prod.mk.injEq] at hs
          have := ih p.1 p.2 hg
          rw [← hs.2]; simp only [List.length_cons]; omega
  exact key _ _ _ h

/-! ## Driver state, calls and the error probe -/

/-- A pending driver error: a non-zero `GLenum`. -/
abbrev ErrCode := { n : Nat // n ≠ 0 }

/-- Payload handed to `glBufferData`. -/
inductive BufferData where
  | floats (xs : List ℚ)
  | uints (xs : List Nat)
  deriving DecidableEq

/-- The driver entry points the program calls, with the arguments it passes
(out-pointers are left out: what the driver writes is the call's result). -/
inductive GLCmd where
  | glGetString (name : Nat)
  | glCreateShader (type : Nat)
  | glShaderSource (shader count : Nat) (src : String)
  | glCompileShader (shader : Nat)
  | glGetShaderiv (shader pname : Nat)
  | glGetShaderInfoLog (shader : Nat) (bufSize : Int)
  | glCreateProgram
  | glAttachShader (program shader : Nat)
  | glLinkProgram (program : Nat)
  | glValidateProgram (program : Nat)
  | glDeleteShader (shader : Nat)
  | glUseProgram (program : Nat)
  | glGetUniformLocation (program : Nat) (name : String)
  | glGenVertexArrays (n : Nat)
  | glBindVertexArray (array : Nat)
  | glGenBuffers (n : Nat)
  | glBindBuffer (target buffer : Nat)
  | glBufferData (target size : Nat) (data : BufferData) (usage : Nat)
  | glEnableVertexAttribArray (index : Nat)
  | glVertexAttribPointer (index size type normalized stride offset : Nat)
  | glDeleteVertexArrays (n array : Nat)
  | glDeleteBuffers (n buffer : Nat)
  | glDeleteProgram (program : Nat)
  | glClear (mask : Nat)
  | glUniform4f (location : Int) (v0 v1 v2 v3 : ℚ)
  | glDrawElements (mode count type offset : Nat)
  deriving DecidableEq

/-- Everything outside the program: the expansion of `__FILE__`, the file
system, how `operator<<` prints a `float`, and the driver.  The driver is a
deterministic oracle: from the calls issued so far and the call being made it
decides the errors the call raises and the value it returns. -/
structure Env where
  sourceFile : String
  files : String → Option String
  formatFloat : ℚ → String
  raises : List GLCmd → GLCmd → List ErrCode
  getString : List GLCmd → Nat → String
  createShader : List GLCmd → Nat → Nat
  getShaderiv : List GLCmd → Nat → Nat → Int
  getShaderInfoLog : List GLCmd → Nat → Int → String
  createProgram : List GLCmd → Nat
  getUniformLocation : List GLCmd → Nat → String → Int
  genVertexArrays : List GLCmd → Nat
  genBuffers : List GLCmd → Nat

/-- Observable state: the driver's pending error queue, the driver calls issued
so far (oldest first; `glGetError` is not recorded), and the text written to
`std::cout`. -/
structure GLState where
  errors : List ErrCode
  trace : List GLCmd
  out : String
  deriving DecidableEq

/-- Outcome of running a piece of the program: it returns a value, or it hits
`__debugbreak()`; either way in the state reached. -/
inductive Run (α : Type) where
  | ret (a : α) (s : GLState)
  | trap (s : GLState)

/-- A piece of the program that may trap. -/
def Prog (α : Type) : Type := GLState → Run α

/-- Sequencing: a trap ends the run. -/
def Prog.bind {α β : Type} (m : Prog α) (f : α → Prog β) : Prog β := fun s =>
  match m s with
  | .ret a s1 => f a s1
  | .trap s1 => .trap s1

instance : Monad Prog where
  pure := fun a s => .ret a s
  bind := Prog.bind

/-- A bare driver call: it cannot trap, it returns a value and a new state. -/
abbrev DriverCall (α : Type) : Type := GLState → α × GLState

def GL_NO_ERROR : Nat := 0
def GL_FALSE : Nat := 0
def GL_TRIANGLES : Nat := 0x0004
def GL_UNSIGNED_INT : Nat := 0x1405
def GL_FLOAT : Nat := 0x1406
def GL_VERSION : Nat := 0x1F02
def GL_COLOR_BUFFER_BIT : Nat := 0x4000
def GL_ARRAY_BUFFER : Nat := 0x8892
def GL_ELEMENT_ARRAY_BUFFER : Nat := 0x8893
def GL_STATIC_DRAW : Nat := 0x88E4
def GL_FRAGMENT_SHADER : Nat := 0x8B30
def GL_VERTEX_SHADER : Nat := 0x8B31
def GL_COMPILE_STATUS : Nat := 0x8B81
def GL_INFO_LOG_LENGTH : Nat := 0x8B84

/-- The value of `sizeof(float)`. -/
def sizeofFloat : Nat := 4

/-- The call `glGetError()`: pops the oldest pending error, `GL_NO_ERROR` if none. -/
def glGetError : DriverCall Nat := fun s =>
  match s.errors with
  | [] => (GL_NO_ERROR, s)
  | e :: rest => (e.val, { s with errors := rest })

/-- The loop `while (f->glGetError() != GL_NO_ERROR);` on the pending queue:
each round pops one code and goes on while it is not `GL_NO_ERROR`. -/
def GLClearError.loop : List ErrCode → List ErrCode
  | [] => []
  | e :: rest => if e.val != GL_NO_ERROR then GLClearError.loop rest else rest

/-- The function `GLClearError()`. -/
def GLClearError (s : GLState) : GLState :=
  { s with errors := GLClearError.loop s.errors }

/-- The function `GLLogCall(function, file, line)`: reads one error; if there is one, prints
the diagnostic and returns false. -/
def GLLogCall (function file : String) (line : Nat) : DriverCall Bool := fun s =>
  match glGetError s with
  | (error, s1) =>
    if error != 0 then
      (false, { s1 with out := s1.out ++ "[OpenGL Error] (" ++ toString error ++ ") : "
                  ++ function ++ ", " ++ file ++ " : " ++ toString line ++ "\n" })
    else (true, s1)

/-- The macro `ASSERT(x)`: `if(!(x)) __debugbreak();`. -/
def ASSERT (x : Bool) : Prog Unit := fun s =>
  if !x then .trap s else .ret () s

/-- The macro `GLCall(x)`: `GLClearError(); x; ASSERT(GLLogCall(#x, __FILE__, __LINE__))`.
`text` is the stringified statement `#x`. -/
def GLCall {α : Type} (env : Env) (text : String) (line : Nat) (x : DriverCall α) : Prog α :=
  fun s =>
    let s1 := GLClearError s
    match x s1 with
    | (a, s2) =>
      match GLLogCall text env.sourceFile line s2 with
      | (ok, s3) =>
        match ASSERT ok s3 with
        | .ret _ s4 => .ret a s4
        | .trap s4 => .trap s4

/-- The driver executes call `c`: the call is recorded and the errors it raises
join the pending queue. -/
def issue (env : Env) (c : GLCmd) (s : GLState) : GLState :=
  { s with trace := s.trace ++ [c], errors := s.errors ++ env.raises s.trace c }

/-- A driver call without a result. -/
def call (env : Env) (c : GLCmd) : DriverCall Unit := fun s => ((), issue env c s)

/-- A driver call whose result the oracle `f` picks from the calls made before. -/
def query {α : Type} (env : Env) (c : GLCmd) (f : List GLCmd → α) : DriverCall α :=
  fun s => (f s.trace, issue env c s)

/-- The statement `std::cout << text`. -/
def cout (text : String) : Prog Unit := fun s => .ret () { s with out := s.out ++ text }

/-! ## The program -/

/-- The function `LoadShader(filepath)`.  A file that cannot be opened leaves
the stream failed, so the loop body never runs. -/
def LoadShader (env : Env) (filepath : String) : String :=
  match env.files filepath with
  | none => ""
  | some content => String.mk (LoadShader.loop content.data [])

/-- The function `CompileShader(type, source)`. -/
def CompileShader (env : Env) (type : Nat) (source : String) : Prog Nat := do
  let id ← GLCall env "unsigned int id = f->glCreateShader(type)" 46
    (query env (.glCreateShader type) (fun h => env.createShader h type))
  GLCall env "f->glShaderSource(id, 1, &src, 0)" 48 (call env (.glShaderSource id 1 source))
  GLCall env "f->glCompileShader(id)" 49 (call env (.glCompileShader id))
  let result ← GLCall env "f->glGetShaderiv(id, GL_COMPILE_STATUS, &result)" 52
    (query env (.glGetShaderiv id GL_COMPILE_STATUS)
      (fun h => env.getShaderiv h id GL_COMPILE_STATUS))
  if result == (GL_FALSE : Int) then
    let length ← GLCall env "f->glGetShaderiv(id, GL_INFO_LOG_LENGTH, &length)" 55
      (query env (.glGetShaderiv id GL_INFO_LOG_LENGTH)
        (fun h => env.getShaderiv h id GL_INFO_LOG_LENGTH))
    let message ← GLCall env "f->glGetShaderInfoLog(id, length, &length, message)" 58
      (query env (.glGetShaderInfoLog id length) (fun h => env.getShaderInfoLog h id length))
    cout ("Failed to compile "
      ++ (if type == GL_VERTEX_SHADER then "vertex " else "fragment ")
      ++ "shader!" ++ "\n")
    cout (message ++ "\n")
    return 0
  else
    return id

/-- The function `CreateShaderProgram(vertexShader, fragmentShader)`. -/
def CreateShaderProgram (env : Env) (vertexShader fragmentShader : String) : Prog Nat := do
  let program ← GLCall env "unsigned int program = f->glCreateProgram()" 76
    (query env .glCreateProgram env.createProgram)
  let vs ← CompileShader env GL_VERTEX_SHADER vertexShader
  let fs ← CompileShader env GL_FRAGMENT_SHADER fragmentShader
  GLCall env "f->glAttachShader(program, vs)" 80 (call env (.glAttachShader program vs))
  GLCall env "f->glAttachShader(program, fs)" 81 (call env (.glAttachShader program fs))
  GLCall env "f->glLinkProgram(program)" 82 (call env (.glLinkProgram program))
  GLCall env "f->glValidateProgram(program)" 83 (call env (.glValidateProgram program))
  GLCall env "f->glDeleteShader(vs)" 85 (call env (.glDeleteShader vs))
  GLCall env "f->glDeleteShader(fs)" 86 (call env (.glDeleteShader fs))
  return program

/-- The mutable members of `class OpenGL`. -/
structure OpenGL where
  vao : Nat
  vbo : Nat
  ibo : Nat
  program : Nat
  location : Int
  initialized : Bool
  deriving DecidableEq

/-- The member `float positions[8]` (never written after its initialiser). -/
def OpenGL.positions : List ℚ := [-(1 / 2), -(1 / 2), 1 / 2, -(1 / 2), 1 / 2, 1 / 2, -(1 / 2), 1 / 2]

/-- The member `unsigned int indices[6]` (never written after its initialiser). -/
def OpenGL.indices : List Nat := [0, 1, 2, 2, 3, 0]

/-- The constructor `OpenGL() : initialized(false) { }`.  The other members are
left as the memory `raw` happens to hold. -/
def OpenGL.ctor (raw : OpenGL) : OpenGL := { raw with initialized := false }

/-- The destructor `~OpenGL()`. -/
def OpenGL.dtor (env : Env) (w : OpenGL) : Prog Unit := do
  if w.initialized then
    GLCall env "f->glDeleteVertexArrays(1, &vao)" 119 (call env (.glDeleteVertexArrays 1 w.vao))
    GLCall env "f->glDeleteBuffers(1, &vbo)" 120 (call env (.glDeleteBuffers 1 w.vbo))
    GLCall env "f->glDeleteBuffers(1, &ibo)" 121 (call env (.glDeleteBuffers 1 w.ibo))
    GLCall env "f->glDeleteProgram(program)" 122 (call env (.glDeleteProgram w.program))

/-- The statement `std::cout << f->glGetString(GL_VERSION) << std::endl`. -/
def printVersion (env : Env) : DriverCall Unit := fun s =>
  ((), { issue env (.glGetString GL_VERSION) s with
           out := s.out ++ env.getString s.trace GL_VERSION ++ "\n" })

/-- The method `OpenGL::initializeGL()`; returns the object with the members it
assigned. -/
def initializeGL (env : Env) (w : OpenGL) : Prog OpenGL := do
  GLCall env "std::cout << f->glGetString(GL_VERSION) << std::endl" 130 (printVersion env)
  let vertexShader := LoadShader env "res/shaders/Basic.vertex"
  let fragmentShader := LoadShader env "res/shaders/Basic.fragment"
  let program ← CreateShaderProgram env vertexShader fragmentShader
  let w := { w with program := program }
  GLCall env "f->glUseProgram(program)" 137 (call env (.glUseProgram w.program))
  let location ← GLCall env "location = f->glGetUniformLocation(program, \"u_Color\")" 138
    (query env (.glGetUniformLocation w.program "u_Color")
      (fun h => env.getUniformLocation h w.program "u_Color"))
  let w := { w with location := location }
  ASSERT (w.location != -1)
  let vao ← GLCall env "f->glGenVertexArrays(1, &vao)" 141
    (query env (.glGenVertexArrays 1) env.genVertexArrays)
  let w := { w with vao := vao }
  GLCall env "f->glBindVertexArray(vao)" 142 (call env (.glBindVertexArray w.vao))
  let vbo ← GLCall env "f->glGenBuffers(1, &vbo)" 144 (query env (.glGenBuffers 1) env.genBuffers)
  let w := { w with vbo := vbo }
  GLCall env "f->glBindBuffer(GL_ARRAY_BUFFER, vbo)" 145
    (call env (.glBindBuffer GL_ARRAY_BUFFER w.vbo))
  GLCall env "f->glBufferData(GL_ARRAY_BUFFER, 8 * sizeof(float), positions, GL_STATIC_DRAW)" 146
    (call env (.glBufferData GL_ARRAY_BUFFER (8 * sizeofFloat) (.floats OpenGL.positions)
      GL_STATIC_DRAW))
  GLCall env "f->glEnableVertexAttribArray(0)" 148 (call env (.glEnableVertexAttribArray 0))
  GLCall env "f->glVertexAttribPointer(0, 2, GL_FLOAT, GL_FALSE, 2 * sizeof(float), 0)" 149
    (call env (.glVertexAttribPointer 0 2 GL_FLOAT GL_FALSE (2 * sizeofFloat) 0))
  let ibo ← GLCall env "f->glGenBuffers(1, &ibo)" 151 (query env (.glGenBuffers 1) env.genBuffers)
  let w := { w with ibo := ibo }
  GLCall env "f->glBindBuffer(GL_ELEMENT_ARRAY_BUFFER, ibo)" 152
    (call env (.glBindBuffer GL_ELEMENT_ARRAY_BUFFER w.ibo))
  GLCall env
    "f->glBufferData(GL_ELEMENT_ARRAY_BUFFER, 6 * sizeof(float), indices, GL_STATIC_DRAW)" 153
    (call env (.glBufferData GL_ELEMENT_ARRAY_BUFFER (6 * sizeofFloat) (.uints OpenGL.indices)
      GL_STATIC_DRAW))
  return w

/-- The method `OpenGL::paintGL()`.  The function-local statics are passed in
and the updated ones returned. -/
def paintGL (env : Env) (w : OpenGL) (a : AnimationState) : Prog AnimationState := do
  GLCall env "f->glClear(GL_COLOR_BUFFER_BIT)" 159 (call env (.glClear GL_COLOR_BUFFER_BIT))
  let a := advance a
  cout ("r : " ++ env.formatFloat a.r ++ "\n")
  GLCall env "f->glUseProgram(program)" 175 (call env (.glUseProgram w.program))
  GLCall env "f->glUniform4f(location, r, 0.3f, 0.8f, 1.0f)" 176
    (call env (.glUniform4f w.location a.r (3 / 10) (8 / 10) 1))
  GLCall env "f->glBindVertexArray(vao)" 178 (call env (.glBindVertexArray w.vao))
  GLCall env "f->glBindBuffer(GL_ELEMENT_ARRAY_BUFFER, ibo)" 179
    (call env (.glBindBuffer GL_ELEMENT_ARRAY_BUFFER w.ibo))
  GLCall env "f->glDrawElements(GL_TRIANGLES, 6, GL_UNSIGNED_INT, 0)" 180
    (call env (.glDrawElements GL_TRIANGLES 6 GL_UNSIGNED_INT 0))
  return a

/-- The host calls `paintGL` `n` times in a row, the statics starting at their
initial values; the result is the statics after the last call. -/
def renderFrames (env : Env) (w : OpenGL) : Nat → Prog AnimationState
  | 0 => pure AnimationState.init
  | n + 1 => do
    let a ← renderFrames env w n
    paintGL env w a

/-! ## Vocabulary of the specification -/

/-- The two stage kinds of the specification. -/
inductive StageKind where
  | vertex
  | fragment
  deriving DecidableEq

/-- The `GLenum` passed to `CompileShader` for a stage kind. -/
def StageKind.glType : StageKind → Nat
  | .vertex => GL_VERTEX_SHADER
  | .fragment => GL_FRAGMENT_SHADER

/-- The tag the specification names for a stage kind. -/
def StageKind.tag : StageKind → String
  | .vertex => "vertex"
  | .fragment => "fragment"

/-- The text with a line break put after its last line when that line has
none. -/
def withFinalNewline : List Char → List Char
  | [] => []
  | [c] => if c = '\n' then [c] else [c, '\n']
  | c :: cs => c :: withFinalNewline cs

/-- The calls that draw. -/
def GLCmd.isDraw : GLCmd → Bool
  | .glDrawElements _ _ _ _ => true
  | _ => false

/-- The calls that write a uniform. -/
def GLCmd.isUniformWrite : GLCmd → Bool
  | .glUniform4f _ _ _ _ _ => true
  | _ => false

/-- The two calls that set up a vertex attribute. -/
def GLCmd.isAttribSetup : GLCmd → Bool
  | .glEnableVertexAttribArray _ => true
  | .glVertexAttribPointer _ _ _ _ _ _ => true
  | _ => false

/-- The geometry-setup calls: generating and binding vertex arrays and
buffers, uploading buffer data, and setting up vertex attributes. -/
def GLCmd.isGeometry : GLCmd → Bool
  | .glGenVertexArrays _ => true
  | .glBindVertexArray _ => true
  | .glGenBuffers _ => true
  | .glBindBuffer _ _ => true
  | .glBufferData _ _ _ _ => true
  | .glEnableVertexAttribArray _ => true
  | .glVertexAttribPointer _ _ _ _ _ _ => true
  | _ => false

/-- The calls that delete a driver object. -/
def GLCmd.isDelete : GLCmd → Bool
  | .glDeleteShader _ => true
  | .glDeleteVertexArrays _ _ => true
  | .glDeleteBuffers _ _ => true
  | .glDeleteProgram _ => true
  | _ => false

/-- The ten geometry calls in the order the specification lists them:
the attribute is described before its slot is enabled. -/
def specGeometryOrder (w : OpenGL) : List GLCmd :=
  [ .glGenVertexArrays 1,
    .glBindVertexArray w.vao,
    .glGenBuffers 1,
    .glBindBuffer GL_ARRAY_BUFFER w.vbo,
    .glBufferData GL_ARRAY_BUFFER (8 * sizeofFloat) (.floats OpenGL.positions) GL_STATIC_DRAW,
    .glVertexAttribPointer 0 2 GL_FLOAT GL_FALSE (2 * sizeofFloat) 0,
    .glEnableVertexAttribArray 0,
    .glGenBuffers 1,
    .glBindBuffer GL_ELEMENT_ARRAY_BUFFER w.ibo,
    .glBufferData GL_ELEMENT_ARRAY_BUFFER (6 * sizeofFloat) (.uints OpenGL.indices)
      GL_STATIC_DRAW ]

/-- The ten geometry calls in the order `initializeGL` issues them:
the slot is enabled before the attribute is described. -/
def codeGeometryOrder (w : OpenGL) : List GLCmd :=
  [ .glGenVertexArrays 1,
    .glBindVertexArray w.vao,
    .glGenBuffers 1,
    .glBindBuffer GL_ARRAY_BUFFER w.vbo,
    .glBufferData GL_ARRAY_BUFFER (8 * sizeofFloat) (.floats OpenGL.positions) GL_STATIC_DRAW,
    .glEnableVertexAttribArray 0,
    .glVertexAttribPointer 0 2 GL_FLOAT GL_FALSE (2 * sizeofFloat) 0,
    .glGenBuffers 1,
    .glBindBuffer GL_ELEMENT_ARRAY_BUFFER w.ibo,
    .glBufferData GL_ELEMENT_ARRAY_BUFFER (6 * sizeofFloat) (.uints OpenGL.indices)
      GL_STATIC_DRAW ]

/-- The six driver calls of one frame, for the red value `r`. -/
def frameCalls (w : OpenGL) (r : ℚ) : List GLCmd :=
  [ .glClear GL_COLOR_BUFFER_BIT,
    .glUseProgram w.program,
    .glUniform4f w.location r (3 / 10) (8 / 10) 1,
    .glBindVertexArray w.vao,
    .glBindBuffer GL_ELEMENT_ARRAY_BUFFER w.ibo,
    .glDrawElements GL_TRIANGLES 6 GL_UNSIGNED_INT 0 ]

/-! ## Concrete environments used to run the program -/

/-- Number of `glGenBuffers` calls in a history. -/
def countGenBuffers : List GLCmd → Nat
  | [] => 0
  | .glGenBuffers _ :: h => countGenBuffers h + 1
  | _ :: h => countGenBuffers h

/-- A driver on which nothing goes wrong: no call raises an error, both stages
compile, `u_Color` is at location 0.  Handles: program 1, vertex stage 2,
fragment stage 3, vertex array 1, buffers 1, 2, ... -/
def okEnv : Env where
  sourceFile := "main.cpp"
  files := fun path =>
    if path = "res/shaders/Basic.vertex" then
      some "#version 330 core\nlayout(location = 0) in vec4 position;\nvoid main() \x7b gl_Position = position; \x7d\n"
    else if path = "res/shaders/Basic.fragment" then
      some "#version 330 core\nout vec4 color;\nuniform vec4 u_Color;\nvoid main() \x7b color = u_Color; \x7d"
    else none
  formatFloat := fun _ => "?"
  raises := fun _ _ => []
  getString := fun _ _ => "3.3.0"
  createShader := fun _ type => if type = GL_VERTEX_SHADER then 2 else 3
  getShaderiv := fun _ _ pname => if pname = GL_COMPILE_STATUS then 1 else 0
  getShaderInfoLog := fun _ _ _ => ""
  createProgram := fun _ => 1
  getUniformLocation := fun _ _ _ => 0
  genVertexArrays := fun _ => 1
  genBuffers := fun h => countGenBuffers h + 1

/-- The driver of `okEnv`, except that the fragment stage (handle 3) fails to
compile and has the 17-character log `0:1: syntax error`. -/
def badFragmentEnv : Env :=
  { okEnv with
    getShaderiv := fun _ shader pname =>
      if pname = GL_COMPILE_STATUS then (if shader = 3 then 0 else 1)
      else (if shader = 3 then 18 else 0)
    getShaderInfoLog := fun _ shader _ => if shader = 3 then "0:1: syntax error" else "" }

/-- The driver of `okEnv`, except that `glClear` raises `GL_INVALID_ENUM` and
then `GL_INVALID_OPERATION`. -/
def clearFailsEnv : Env :=
  { okEnv with
    raises := fun _ c =>
      match c with
      | .glClear _ => [⟨0x0500, by decide⟩, ⟨0x0502, by decide⟩]
      | _ => [] }

/-- The environment of `okEnv`, except that every path holds the one-line file
`void main();` with no line break at its end. -/
def oneLineEnv : Env :=
  { okEnv with files := fun _ => some "void main();" }

/-- The state before the program has made any call. -/
def GLState.start : GLState := ⟨[], [], ""⟩

/-- A member block as the constructor might find it. -/
def OpenGL.rawZero : OpenGL := ⟨0, 0, 0, 0, 0, true⟩

/-- The error code `GL_INVALID_ENUM`. -/
def GL_INVALID_ENUM : ErrCode := ⟨0x0500, by decide⟩

/-- The error code `GL_INVALID_OPERATION`. -/
def GL_INVALID_OPERATION : ErrCode := ⟨0x0502, by decide⟩

/-! ## Theorems: the animation -/

theorem advance_phaseState (i : Nat) (hi : i < 42) :
    advance (phaseState i) = phaseState ((i + 1) % 42) := by
  interval_cases i <;> norm_num [advance, phaseState]

theorem animAfter_eq_phaseState (n : Nat) : animAfter n = phaseState (n % 42) := by
  induction n with
  | zero => norm_num [animAfter, phaseState, AnimationState.init]
  | succ n ih =>
    rw [animAfter, ih, advance_phaseState _ (Nat.mod_lt _ (by decide))]
    congr 1
    omega

theorem phaseState_bounds (i : Nat) (hi : i < 42) :
    0 ≤ (phaseState i).r ∧ (phaseState i).r ≤ 1 := by
  interval_cases i <;> norm_num [phaseState]

theorem advance_eq_specStep_phaseState (i : Nat) (hi : i < 42) :
    advance (phaseState i) = specStep (phaseState i) := by
  interval_cases i <;> norm_num [advance, specStep, phaseState]

/-- C1. Waveform bound: with the statics taken as exact rationals and started
at `r = 0`, `increment = 1/20`, the value of `r` after any number `N` of
executions of the update in `paintGL` (the value then passed as the red
channel) lies in `[0, 1]`. -/
theorem waveform_bound (N : Nat) : 0 ≤ (animAfter N).r ∧ (animAfter N).r ≤ 1 := by
  rw [animAfter_eq_phaseState]
  exact phaseState_bounds _ (Nat.mod_lt _ (by decide))

/-- C2. Recurrence of both bounds: past every frame count `N` there is a frame
`M ≥ N` after which `r` is exactly `1` and a frame `M' ≥ N` after which `r` is
exactly `0`. -/
theorem bounds_recur (N : Nat) :
    (∃ M, N ≤ M ∧ 1 ≤ M ∧ (animAfter M).r = 1) ∧
    (∃ M', N ≤ M' ∧ 1 ≤ M' ∧ (animAfter M').r = 0) := by
  refine ⟨⟨42 * N + 20, by omega, by omega, ?_⟩, ⟨42 * N + 42, by omega, by omega, ?_⟩⟩
  · rw [animAfter_eq_phaseState]
    have h : (42 * N + 20) % 42 = 20 := by omega
    rw [h]; norm_num [phaseState]
  · rw [animAfter_eq_phaseState]
    have h : (42 * N + 42) % 42 = 0 := by omega
    rw [h]; norm_num [phaseState]

/-- C10. Refinement: on every state reachable from the initial statics by
executions of the update in `paintGL`, the update (which assigns the constants
`-0.05` and `0.05` to the step) equals the increment-clamp-negate step of the
specification. -/
theorem advance_refines_specStep (n : Nat) :
    advance (animAfter n) = specStep (animAfter n) := by
  rw [animAfter_eq_phaseState]
  exact advance_eq_specStep_phaseState _ (Nat.mod_lt _ (by decide))

/-! ## Theorems: the error probe and the bracket -/

theorem GLClearError_loop_nil (q : List ErrCode) : GLClearError.loop q = [] := by
  induction q with
  | nil => rfl
  | cons e rest ih =>
    have he : (e.val != GL_NO_ERROR) = true := by
      simpa [GL_NO_ERROR] using e.property
    simp [GLClearError.loop, he, ih]

theorem GLClearError_eq (s : GLState) : GLClearError s = ⟨[], s.trace, s.out⟩ := by
  simp [GLClearError, GLClearError_loop_nil]

theorem GLLogCall_nil (fn file : String) (line : Nat) (s : GLState) (h : s.errors = []) :
    GLLogCall fn file line s = (true, s) := by
  simp [GLLogCall, glGetError, h, GL_NO_ERROR]

theorem GLLogCall_cons (fn file : String) (line : Nat) (s : GLState) (e : ErrCode)
    (rest : List ErrCode) (h : s.errors = e :: rest) :
    GLLogCall fn file line s =
      (false, ⟨rest, s.trace, s.out ++ "[OpenGL Error] (" ++ toString e.val ++ ") : "
                  ++ fn ++ ", " ++ file ++ " : " ++ toString line ++ "\n"⟩) := by
  have he : (e.val != 0) = true := by simpa using e.property
  simp [GLLogCall, glGetError, h, he]

theorem bind_eq (α β : Type) (m : Prog α) (f : α → Prog β) (s : GLState) :
    (m >>= f) s = match m s with
      | .ret a s1 => f a s1
      | .trap s1 => .trap s1 := rfl

theorem bind_ret (α β : Type) (m : Prog α) (f : α → Prog β) (s s1 : GLState) (a : α)
    (h : m s = .ret a s1) : (m >>= f) s = f a s1 := by
  rw [bind_eq, h]

theorem bind_ret_iff (α β : Type) (m : Prog α) (f : α → Prog β) (s s2 : GLState) (b : β) :
    (m >>= f) s = .ret b s2 ↔ ∃ a s1, m s = .ret a s1 ∧ f a s1 = .ret b s2 := by
  rw [bind_eq]
  cases hm : m s with
  | ret a s1 =>
    constructor
    · intro h
      exact ⟨a, s1, rfl, h⟩
    · rintro ⟨a1, s3, h1, h2⟩
      simp only [Run.ret.injEq] at h1
      rw [h1.1, h1.2]
      exact h2
  | trap s1 => simp

theorem pure_eq (α : Type) (a : α) (s : GLState) : (pure a : Prog α) s = .ret a s := rfl

/-- The bracket around a driver call that leaves no error pending returns the
call's value in the call's state. -/
theorem GLCall_quiet (α : Type) (env : Env) (text : String) (line : Nat) (x : DriverCall α)
    (s : GLState) (h : (x ⟨[], s.trace, s.out⟩).2.errors = []) :
    GLCall env text line x s = .ret (x ⟨[], s.trace, s.out⟩).1 (x ⟨[], s.trace, s.out⟩).2 := by
  simp only [GLCall, GLClearError_eq]
  rw [GLLogCall_nil _ _ _ _ h]
  simp [ASSERT]

/-- The bracket returns only if the driver call left no error pending. -/
theorem GLCall_ret_iff (α : Type) (env : Env) (text : String) (line : Nat) (x : DriverCall α)
    (s s1 : GLState) (a : α) :
    GLCall env text line x s = .ret a s1 ↔
      (x ⟨[], s.trace, s.out⟩).2.errors = [] ∧ a = (x ⟨[], s.trace, s.out⟩).1 ∧
        s1 = (x ⟨[], s.trace, s.out⟩).2 := by
  constructor
  · intro h
    cases hq : (x ⟨[], s.trace, s.out⟩).2.errors with
    | nil =>
      rw [GLCall_quiet _ _ _ _ _ _ hq] at h
      simp only [Run.ret.injEq] at h
      exact ⟨rfl, h.1.symm, h.2.symm⟩
    | cons e rest =>
      simp only [GLCall, GLClearError_eq] at h
      rw [GLLogCall_cons _ _ _ _ e rest hq] at h
      simp [ASSERT] at h
  · rintro ⟨hq, rfl, rfl⟩
    exact GLCall_quiet _ _ _ _ _ _ hq

theorem call_ret_iff (env : Env) (text : String) (line : Nat) (c : GLCmd) (s s1 : GLState)
    (u : Unit) :
    GLCall env text line (call env c) s = .ret u s1 ↔
      env.raises s.trace c = [] ∧ s1 = ⟨[], s.trace ++ [c], s.out⟩ := by
  rw [GLCall_ret_iff]
  simp only [call, issue, List.nil_append]
  constructor
  · rintro ⟨h, -, rfl⟩
    exact ⟨h, by simp [h]⟩
  · rintro ⟨h, rfl⟩
    exact ⟨h, by simp [h]⟩

theorem query_ret_iff (α : Type) (env : Env) (text : String) (line : Nat) (c : GLCmd)
    (f : List GLCmd → α) (s s1 : GLState) (a : α) :
    GLCall env text line (query env c f) s = .ret a s1 ↔
      env.raises s.trace c = [] ∧ a = f s.trace ∧ s1 = ⟨[], s.trace ++ [c], s.out⟩ := by
  rw [GLCall_ret_iff]
  simp only [query, issue, List.nil_append]
  constructor
  · rintro ⟨h, rfl, rfl⟩
    exact ⟨h, rfl, by simp [h]⟩
  · rintro ⟨h, rfl, rfl⟩
    exact ⟨h, rfl, by simp [h]⟩

theorem call_quiet (env : Env) (text : String) (line : Nat) (c : GLCmd) (s : GLState)
    (h : env.raises s.trace c = []) :
    GLCall env text line (call env c) s = .ret () ⟨[], s.trace ++ [c], s.out⟩ :=
  (call_ret_iff env text line c s _ ()).2 ⟨h, rfl⟩

theorem query_quiet (α : Type) (env : Env) (text : String) (line : Nat) (c : GLCmd)
    (f : List GLCmd → α) (s : GLState) (h : env.raises s.trace c = []) :
    GLCall env text line (query env c f) s = .ret (f s.trace) ⟨[], s.trace ++ [c], s.out⟩ :=
  (query_ret_iff α env text line c f s _ _).2 ⟨h, rfl, rfl⟩

/-- C5. No misattributed driver error: whatever the queue holds before, in the
bracket `GLClearError(); x; GLLogCall(...)` the queue is empty after
`GLClearError`; if `x` adds the codes `raised` to the queue, `GLLogCall` returns
false exactly when `raised` is not empty, in that case the text it prints
carries the first code of `raised`, and otherwise it prints nothing; and the
bracket `GLCall(x)` traps exactly when `raised` is not empty. -/
theorem bracket_reports_own_error (α : Type) (env : Env) (x : DriverCall α) (s : GLState)
    (raised : List ErrCode) (fn : String) (line : Nat)
    (hx : (x (GLClearError s)).2.errors = (GLClearError s).errors ++ raised) :
    (GLClearError s).errors = [] ∧
    ((GLLogCall fn env.sourceFile line (x (GLClearError s)).2).1 = false ↔ raised ≠ []) ∧
    (raised = [] →
      (GLLogCall fn env.sourceFile line (x (GLClearError s)).2).2.out
        = (x (GLClearError s)).2.out) ∧
    (∀ e rest, raised = e :: rest →
      (GLLogCall fn env.sourceFile line (x (GLClearError s)).2).2.out
        = (x (GLClearError s)).2.out ++ "[OpenGL Error] (" ++ toString e.val ++ ") : "
            ++ fn ++ ", " ++ env.sourceFile ++ " : " ++ toString line ++ "\n") ∧
    ((∃ s1, GLCall env fn line x s = .trap s1) ↔ raised ≠ []) := by
  have hclear : (GLClearError s).errors = [] := by rw [GLClearError_eq]
  rw [hclear, List.nil_append] at hx
  rw [GLClearError_eq] at hx
  refine ⟨hclear, ?_⟩
  rw [GLClearError_eq]
  cases raised with
  | nil =>
    rw [GLLogCall_nil _ _ _ _ hx, GLCall_quiet _ _ _ _ _ _ hx]
    simp
  | cons e rest =>
    rw [GLLogCall_cons _ _ _ _ e rest hx]
    refine ⟨by simp, by simp, ?_, ?_⟩
    · intro e1 rest1 h
      simp only [List.cons.injEq] at h
      rw [h.1]
    · simp only [GLCall, GLClearError_eq]
      rw [GLLogCall_cons _ _ _ _ e rest hx]
      simp [ASSERT]

/-- Witness for C5: `glClear` on a driver that raises two errors, with one stale
error pending before the bracket. -/
theorem bracket_reports_own_error_witness :
    (call clearFailsEnv (.glClear GL_COLOR_BUFFER_BIT)
        (GLClearError ⟨[GL_INVALID_OPERATION], [], ""⟩)).2.errors
      = (GLClearError ⟨[GL_INVALID_OPERATION], [], ""⟩).errors
          ++ [GL_INVALID_ENUM, GL_INVALID_OPERATION] ∧
    (GLClearError ⟨[GL_INVALID_OPERATION], [], ""⟩).errors = [] ∧
    (GLLogCall "f->glClear(GL_COLOR_BUFFER_BIT)" clearFailsEnv.sourceFile 159
        (call clearFailsEnv (.glClear GL_COLOR_BUFFER_BIT)
          (GLClearError ⟨[GL_INVALID_OPERATION], [], ""⟩)).2).1 = false ∧
    (GLLogCall "f->glClear(GL_COLOR_BUFFER_BIT)" clearFailsEnv.sourceFile 159
        (call clearFailsEnv (.glClear GL_COLOR_BUFFER_BIT)
          (GLClearError ⟨[GL_INVALID_OPERATION], [], ""⟩)).2).2.out
      = "[OpenGL Error] (1280) : f->glClear(GL_COLOR_BUFFER_BIT), main.cpp : 159\n" :=
  have h := bracket_reports_own_error Unit clearFailsEnv
    (call clearFailsEnv (.glClear GL_COLOR_BUFFER_BIT)) ⟨[GL_INVALID_OPERATION], [], ""⟩
    [GL_INVALID_ENUM, GL_INVALID_OPERATION] "f->glClear(GL_COLOR_BUFFER_BIT)" 159 rfl
  ⟨rfl, h.1, h.2.1.2 (by simp), (h.2.2.2.1 _ _ rfl).trans (by decide)⟩

/-! ## Theorems: the source loader -/

theorem loop_none (stream whole : List Char) (h : getline stream = none) :
    LoadShader.loop stream whole = whole := by
  rw [LoadShader.loop]
  split
  · rfl
  · simp_all

theorem loop_some (stream whole line rest : List Char) (h : getline stream = some (line, rest)) :
    LoadShader.loop stream whole = LoadShader.loop rest (whole ++ line ++ ['\n']) := by
  rw [LoadShader.loop]
  split
  · simp_all
  · next l r hg =>
    rw [h] at hg
    simp only [Option.some.injEq, Prod.mk.injEq] at hg
    rw [hg.1, hg.2]

theorem getline_eq_none (s : List Char) : getline s = none ↔ s = [] := by
  cases s with
  | nil => simp [getline]
  | cons c cs =>
    simp only [getline]
    split
    · simp
    · cases getline cs <;> simp

theorem withFinalNewline_cons (c : Char) (cs : List Char) (h : cs ≠ []) :
    withFinalNewline (c :: cs) = c :: withFinalNewline cs := by
  cases cs with
  | nil => exact absurd rfl h
  | cons d ds => rfl

theorem loop_eq (stream : List Char) :
    ∀ whole, LoadShader.loop stream whole = whole ++ withFinalNewline stream := by
  induction stream with
  | nil => intro whole; rw [loop_none _ _ (by simp [getline])]; simp [withFinalNewline]
  | cons c cs ih =>
    intro whole
    by_cases hc : c = '\n'
    · rw [loop_some (c :: cs) whole [] cs (by simp [getline, hc]), ih]
      cases cs with
      | nil => simp [withFinalNewline, hc]
      | cons d ds => rw [withFinalNewline_cons c (d :: ds) (by simp)]; simp [hc]
    · cases hg : getline cs with
      | none =>
        have hcs : cs = [] := (getline_eq_none cs).1 hg
        subst hcs
        rw [loop_some [c] whole [c] [] (by simp [getline, hc]),
          loop_none _ _ (by simp [getline])]
        simp [withFinalNewline, hc]
      | some p =>
        have hne : cs ≠ [] := by
          intro h0; rw [h0] at hg; simp [getline] at hg
        rw [loop_some (c :: cs) whole (c :: p.1) p.2 (by simp [getline, hc, hg]),
          withFinalNewline_cons _ _ hne]
        have h2 := ih (whole ++ [c])
        rw [loop_some cs (whole ++ [c]) p.1 p.2 hg] at h2
        simpa using h2

theorem withFinalNewline_eq (s : List Char) :
    withFinalNewline s = if s = [] ∨ s.getLast? = some '\n' then s else s ++ ['\n'] := by
  induction s with
  | nil => simp [withFinalNewline]
  | cons c cs ih =>
    cases cs with
    | nil =>
      by_cases hc : c = '\n' <;> simp [withFinalNewline, hc]
    | cons d ds =>
      rw [withFinalNewline_cons c (d :: ds) (by simp), ih]
      simp only [List.cons_ne_nil, false_or, List.getLast?_cons_cons]
      split <;> simp

theorem LoadShader_some (env : Env) (filepath content : String)
    (h : env.files filepath = some content) :
    LoadShader env filepath = String.mk (withFinalNewline content.data) := by
  simp only [LoadShader, h]
  rw [loop_eq]
  simp

/-- C7 (amended). The loader returns the file's text unchanged when the text is
empty or ends with a line break, and otherwise the text with one line break
added at its end. -/
theorem LoadShader_text (env : Env) (filepath content : String)
    (h : env.files filepath = some content) :
    LoadShader env filepath =
      if content.data = [] ∨ content.data.getLast? = some '\n' then content
      else content ++ "\n" := by
  rw [LoadShader_some env filepath content h, withFinalNewline_eq]
  split
  · rfl
  · apply String.ext
    simp

/-- Witness for C7 (amended): the vertex source of `okEnv`, which ends with a
line break, is returned unchanged. -/
theorem LoadShader_text_witness :
    okEnv.files "res/shaders/Basic.vertex" =
      some "#version 330 core\nlayout(location = 0) in vec4 position;\nvoid main() \x7b gl_Position = position; \x7d\n" ∧
    LoadShader okEnv "res/shaders/Basic.vertex" =
      "#version 330 core\nlayout(location = 0) in vec4 position;\nvoid main() \x7b gl_Position = position; \x7d\n" :=
  ⟨rfl, (LoadShader_text okEnv "res/shaders/Basic.vertex" _ rfl).trans (by decide)⟩

/-- Counterexample to C7 as stated: a readable one-line file without a final
line break is returned with a line break added. -/
theorem LoadShader_adds_newline :
    oneLineEnv.files "res/shaders/Basic.vertex" = some "void main();" ∧
    LoadShader oneLineEnv "res/shaders/Basic.vertex" = "void main();\n" ∧
    LoadShader oneLineEnv "res/shaders/Basic.vertex" ≠ "void main();" := by
  rw [LoadShader_some oneLineEnv "res/shaders/Basic.vertex" "void main();" rfl]
  decide

/-! ## Theorems: the stage compiler -/

/-- C6. Stage compiler result: on a driver that raises no error, for either
stage kind and any source text: if the driver reports compile status
`GL_FALSE`, `CompileShader` returns the handle `0` and has written
`Failed to compile <tag> shader!` with the tag of the kind, followed by the log
text the driver handed out; otherwise it returns the handle the driver
allocated for the stage and writes nothing. -/
theorem CompileShader_result (env : Env) (kind : StageKind) (source : String) (s : GLState)
    (hquiet : ∀ h c, env.raises h c = []) :
    let id := env.createShader s.trace kind.glType
    let t3 := s.trace ++
      [.glCreateShader kind.glType, .glShaderSource id 1 source, .glCompileShader id]
    let status := env.getShaderiv t3 id GL_COMPILE_STATUS
    let t4 := t3 ++ [.glGetShaderiv id GL_COMPILE_STATUS]
    let length := env.getShaderiv t4 id GL_INFO_LOG_LENGTH
    let log := env.getShaderInfoLog (t4 ++ [.glGetShaderiv id GL_INFO_LOG_LENGTH]) id length
    (status = 0 →
      CompileShader env kind.glType source s =
        .ret 0 ⟨[], t4 ++ [.glGetShaderiv id GL_INFO_LOG_LENGTH, .glGetShaderInfoLog id length],
          s.out ++ ("Failed to compile " ++ kind.tag ++ " shader!\n") ++ (log ++ "\n")⟩) ∧
    (status ≠ 0 → CompileShader env kind.glType source s = .ret id ⟨[], t4, s.out⟩) := by
  have hc : ∀ (t : String) (l : Nat) (c : GLCmd) (s : GLState),
      GLCall env t l (call env c) s = .ret () ⟨[], s.trace ++ [c], s.out⟩ :=
    fun t l c s => call_quiet env t l c s (hquiet _ _)
  have hqN : ∀ (t : String) (l : Nat) (c : GLCmd) (f : List GLCmd → Nat) (s : GLState),
      GLCall env t l (query env c f) s = .ret (f s.trace) ⟨[], s.trace ++ [c], s.out⟩ :=
    fun t l c f s => query_quiet Nat env t l c f s (hquiet _ _)
  have hqI : ∀ (t : String) (l : Nat) (c : GLCmd) (f : List GLCmd → Int) (s : GLState),
      GLCall env t l (query env c f) s = .ret (f s.trace) ⟨[], s.trace ++ [c], s.out⟩ :=
    fun t l c f s => query_quiet Int env t l c f s (hquiet _ _)
  have hqS : ∀ (t : String) (l : Nat) (c : GLCmd) (f : List GLCmd → String) (s : GLState),
      GLCall env t l (query env c f) s = .ret (f s.trace) ⟨[], s.trace ++ [c], s.out⟩ :=
    fun t l c f s => query_quiet String env t l c f s (hquiet _ _)
  have hne : GL_FRAGMENT_SHADER ≠ GL_VERTEX_SHADER := by decide
  intro id t3 status t4 length log
  constructor
  · intro hs
    simp only [id, t3, status] at hs
    cases kind <;> simp only [StageKind.glType] at hs <;>
      simp [CompileShader, bind_eq, hc, hqN, hqI, hqS, pure_eq, cout, GL_FALSE, id, t3,
        t4, length, log, hs, hne, StageKind.glType, StageKind.tag]
  · intro hs
    simp only [id, t3, status] at hs
    simp [CompileShader, bind_eq, hc, hqN, hqI, pure_eq, GL_FALSE, id, t3, t4, hs]

/-- Witness for C6: the fragment stage on a driver whose fragment compile
fails. -/
theorem CompileShader_result_witness :
    CompileShader badFragmentEnv GL_FRAGMENT_SHADER "void main()" GLState.start =
      .ret 0 ⟨[], [.glCreateShader GL_FRAGMENT_SHADER, .glShaderSource 3 1 "void main()",
          .glCompileShader 3, .glGetShaderiv 3 GL_COMPILE_STATUS,
          .glGetShaderiv 3 GL_INFO_LOG_LENGTH, .glGetShaderInfoLog 3 18],
        "Failed to compile fragment shader!\n0:1: syntax error\n"⟩ :=
  (CompileShader_result badFragmentEnv .fragment "void main()" GLState.start
    (fun _ _ => rfl)).1 rfl

/-! ## Theorems: initialisation, frames and teardown -/

theorem ASSERT_ret_iff (b : Bool) (s s1 : GLState) (u : Unit) :
    ASSERT b s = .ret u s1 ↔ b = true ∧ s1 = s := by
  cases b <;> simp [ASSERT, eq_comm]

theorem cout_ret_iff (text : String) (s s1 : GLState) (u : Unit) :
    cout text s = .ret u s1 ↔ s1 = ⟨s.errors, s.trace, s.out ++ text⟩ := by
  simp [cout, eq_comm]

theorem pure_ret_iff (α : Type) (a b : α) (s s1 : GLState) :
    (pure a : Prog α) s = .ret b s1 ↔ b = a ∧ s1 = s := by
  simp [pure_eq, eq_comm]

theorem CompileShader_geometry (env : Env) (type : Nat) (source : String) (s s1 : GLState)
    (a : Nat) (h : CompileShader env type source s = .ret a s1) :
    s1.trace.filter GLCmd.isGeometry = s.trace.filter GLCmd.isGeometry := by
  simp only [CompileShader, bind_ret_iff, query_ret_iff, call_ret_iff] at h
  obtain ⟨id, sa, ⟨-, -, rfl⟩, -, sb, ⟨-, rfl⟩, -, sc, ⟨-, rfl⟩, result, sd, ⟨-, -, rfl⟩, h⟩ := h
  split at h
  · simp only [bind_ret_iff, query_ret_iff, cout_ret_iff, pure_ret_iff] at h
    obtain ⟨len, se, ⟨-, -, rfl⟩, msg, sf, ⟨-, -, rfl⟩, -, sg, rfl, -, sh, rfl, -, rfl⟩ := h
    simp [List.filter_append, GLCmd.isGeometry]
  · simp only [pure_ret_iff] at h
    obtain ⟨-, rfl⟩ := h
    simp [List.filter_append, GLCmd.isGeometry]

theorem CreateShaderProgram_geometry (env : Env) (vertexShader fragmentShader : String)
    (s s1 : GLState) (a : Nat)
    (h : CreateShaderProgram env vertexShader fragmentShader s = .ret a s1) :
    s1.trace.filter GLCmd.isGeometry = s.trace.filter GLCmd.isGeometry := by
  simp only [CreateShaderProgram, bind_ret_iff, query_ret_iff, call_ret_iff, pure_ret_iff] at h
  obtain ⟨program, sa, ⟨-, -, rfl⟩, vs, sb, hvs, fs, sc, hfs, -, sd, ⟨-, rfl⟩, -, se, ⟨-, rfl⟩,
    -, sf, ⟨-, rfl⟩, -, sg, ⟨-, rfl⟩, -, sh, ⟨-, rfl⟩, -, si, ⟨-, rfl⟩, -, rfl⟩ := h
  have h1 := CompileShader_geometry _ _ _ _ _ _ hvs
  have h2 := CompileShader_geometry _ _ _ _ _ _ hfs
  simp only [List.filter_append] at h1 ⊢
  rw [h2, h1]
  simp [GLCmd.isGeometry]

theorem printVersion_ret_iff (env : Env) (text : String) (line : Nat) (s s1 : GLState)
    (u : Unit) :
    GLCall env text line (printVersion env) s = .ret u s1 ↔
      env.raises s.trace (.glGetString GL_VERSION) = [] ∧
        s1 = ⟨[], s.trace ++ [.glGetString GL_VERSION],
          s.out ++ env.getString s.trace GL_VERSION ++ "\n"⟩ := by
  rw [GLCall_ret_iff]
  simp only [printVersion, issue, List.nil_append]
  constructor
  · rintro ⟨h, -, rfl⟩
    exact ⟨h, by simp [h]⟩
  · rintro ⟨h, rfl⟩
    exact ⟨h, by simp [h]⟩

/-- What a completed `initializeGL` leaves behind: the members it assigned, the
calls it made, and an `initialized` flag it never touched. -/
theorem initializeGL_ret (env : Env) (w w1 : OpenGL) (s s1 : GLState)
    (h : initializeGL env w s = .ret w1 s1) :
    (∃ pre, s1.trace = pre ++ codeGeometryOrder w1 ∧
      pre.filter GLCmd.isGeometry = s.trace.filter GLCmd.isGeometry) ∧
    w1.initialized = w.initialized ∧ w1.location ≠ -1 ∧ s1.errors = [] := by
  simp only [initializeGL, bind_ret_iff, query_ret_iff, call_ret_iff, pure_ret_iff,
    printVersion_ret_iff, ASSERT_ret_iff] at h
  obtain ⟨-, sa, ⟨-, rfl⟩, program, sb, hprog, -, sc, ⟨-, rfl⟩, location, sd, ⟨-, rfl, rfl⟩,
    -, se, ⟨hloc, rfl⟩, vao, sf, ⟨-, rfl, rfl⟩, -, sg, ⟨-, rfl⟩, vbo, sh, ⟨-, rfl, rfl⟩,
    -, si, ⟨-, rfl⟩, -, sj, ⟨-, rfl⟩, -, sk, ⟨-, rfl⟩, -, sl, ⟨-, rfl⟩, ibo, sm, ⟨-, rfl, rfl⟩,
    -, sn, ⟨-, rfl⟩, -, so, ⟨-, rfl⟩, rfl, rfl⟩ := h
  have hg := CreateShaderProgram_geometry _ _ _ _ _ _ hprog
  refine ⟨⟨sb.trace ++ [.glUseProgram program, .glGetUniformLocation program "u_Color"],
    by simp [codeGeometryOrder], ?_⟩, rfl, by simpa using hloc, rfl⟩
  rw [List.filter_append, hg]
  simp [List.filter_append, GLCmd.isGeometry]


theorem dtor_uninitialized (env : Env) (w : OpenGL) (s : GLState) (h : w.initialized = false) :
    OpenGL.dtor env w s = .ret () s := by
  simp [OpenGL.dtor, h, pure_eq]

/-- C9 (amended). Geometry creation order: in every run of `initializeGL` that
completes, the geometry-setup calls it adds to the trace are exactly the ten
calls of `codeGeometryOrder`, in that order and as the last ten calls of the
run: generate and bind the vertex array, generate and bind the vertex buffer,
upload 8 floats, enable attribute slot 0, describe attribute 0 (2 floats, not
normalised, stride 2 floats, offset 0), generate and bind the index buffer,
upload the index data. -/
theorem geometry_order (env : Env) (raw w1 : OpenGL) (s0 s1 : GLState)
    (hinit : initializeGL env (OpenGL.ctor raw) s0 = .ret w1 s1) :
    s1.trace.filter GLCmd.isGeometry = s0.trace.filter GLCmd.isGeometry ++ codeGeometryOrder w1 ∧
    (∃ pre, s1.trace = pre ++ codeGeometryOrder w1) ∧
    codeGeometryOrder w1 =
      [ .glGenVertexArrays 1, .glBindVertexArray w1.vao, .glGenBuffers 1,
        .glBindBuffer GL_ARRAY_BUFFER w1.vbo,
        .glBufferData GL_ARRAY_BUFFER (8 * sizeofFloat) (.floats OpenGL.positions) GL_STATIC_DRAW,
        .glEnableVertexAttribArray 0,
        .glVertexAttribPointer 0 2 GL_FLOAT GL_FALSE (2 * sizeofFloat) 0,
        .glGenBuffers 1, .glBindBuffer GL_ELEMENT_ARRAY_BUFFER w1.ibo,
        .glBufferData GL_ELEMENT_ARRAY_BUFFER (6 * sizeofFloat) (.uints OpenGL.indices)
          GL_STATIC_DRAW ] := by
  obtain ⟨⟨pre, htrace, hpre⟩, -, -, -⟩ := initializeGL_ret env _ w1 s0 s1 hinit
  refine ⟨?_, ⟨pre, htrace⟩, rfl⟩
  rw [htrace, List.filter_append, hpre]
  congr 1

/-- Witness for C9 (amended): the run of `initializeGL` on `okEnv`. -/
theorem geometry_order_witness :
    ∃ w1 s1, initializeGL okEnv (OpenGL.ctor OpenGL.rawZero) GLState.start = .ret w1 s1 ∧
      s1.trace.filter GLCmd.isGeometry = codeGeometryOrder w1 := by
  obtain ⟨w1, s1, h⟩ :
      ∃ w1 s1, initializeGL okEnv (OpenGL.ctor OpenGL.rawZero) GLState.start = .ret w1 s1 :=
    ⟨_, _, rfl⟩
  exact ⟨w1, s1, h, (geometry_order okEnv _ w1 _ s1 h).1⟩

/-- Counterexample to C9 as stated: in the completed run of `initializeGL` on
`okEnv` the slot is enabled before the attribute is described, so the calls do
not appear in the order the claim lists, not even with other calls between. -/
theorem geometry_order_not_as_listed :
    ∃ w1 s1, initializeGL okEnv (OpenGL.ctor OpenGL.rawZero) GLState.start = .ret w1 s1 ∧
      s1.trace.filter GLCmd.isAttribSetup =
        [.glEnableVertexAttribArray 0,
         .glVertexAttribPointer 0 2 GL_FLOAT GL_FALSE (2 * sizeofFloat) 0] ∧
      ¬ (specGeometryOrder w1).Sublist s1.trace := by
  refine ⟨_, _, rfl, rfl, ?_⟩
  intro h
  have h2 := h.filter GLCmd.isAttribSetup
  revert h2
  decide

/-- C3. End-to-end first frame: after `initializeGL` has completed, a first
`paintGL` on which the driver raises no error returns, and the calls it adds
to the trace are the six of `frameCalls`; among them is exactly one draw call,
`glDrawElements(GL_TRIANGLES, 6, GL_UNSIGNED_INT, 0)`, and exactly one uniform
write, to the cached location with the value `(1/20, 3/10, 8/10, 1)`, the red
channel being the first increment from `0`. -/
theorem first_frame (env : Env) (raw w1 : OpenGL) (s0 s1 : GLState)
    (hinit : initializeGL env (OpenGL.ctor raw) s0 = .ret w1 s1)
    (hquiet : ∀ h c, env.raises (s1.trace ++ h) c = []) :
    ∃ s2, paintGL env w1 AnimationState.init s1 = .ret ⟨1 / 20, 1 / 20⟩ s2 ∧
      s2.trace = s1.trace ++ frameCalls w1 (1 / 20) ∧
      (frameCalls w1 (1 / 20)).filter GLCmd.isDraw =
        [.glDrawElements GL_TRIANGLES 6 GL_UNSIGNED_INT 0] ∧
      (frameCalls w1 (1 / 20)).filter GLCmd.isUniformWrite =
        [.glUniform4f w1.location (1 / 20) (3 / 10) (8 / 10) 1] ∧
      w1.location ≠ -1 ∧
      AnimationState.init.r + AnimationState.init.increment = 1 / 20 := by
  obtain ⟨-, -, hloc, -⟩ := initializeGL_ret env _ w1 s0 s1 hinit
  have h0 : ∀ c, env.raises s1.trace c = [] := fun c => by simpa using hquiet [] c
  have hadv : advance AnimationState.init = ⟨1 / 20, 1 / 20⟩ := by
    norm_num [advance, AnimationState.init]
  refine ⟨⟨[], s1.trace ++ frameCalls w1 (1 / 20),
      s1.out ++ ("r : " ++ env.formatFloat (1 / 20) ++ "\n")⟩, ?_, ?_,
    by simp [frameCalls, GLCmd.isDraw], by simp [frameCalls, GLCmd.isUniformWrite],
    hloc, by norm_num [AnimationState.init]⟩
  · simp only [paintGL, bind_eq, hadv]
    rw [call_quiet _ _ _ _ _ (h0 _)]
    simp only [cout]
    rw [call_quiet _ _ _ _ _ (by simpa using hquiet _ _)]
    simp only []
    rw [call_quiet _ _ _ _ _ (by simpa using hquiet _ _)]
    simp only []
    rw [call_quiet _ _ _ _ _ (by simpa using hquiet _ _)]
    simp only []
    rw [call_quiet _ _ _ _ _ (by simpa using hquiet _ _)]
    simp only []
    rw [call_quiet _ _ _ _ _ (by simpa using hquiet _ _)]
    simp [pure_eq, frameCalls]
  · rfl

/-- A frame that returns has updated the statics by `advance` and has added the
six calls of `frameCalls` with the updated `r` as the red channel. -/
theorem paintGL_ret (env : Env) (w : OpenGL) (a a1 : AnimationState) (s s1 : GLState)
    (h : paintGL env w a s = .ret a1 s1) :
    a1 = advance a ∧ s1.trace = s.trace ++ frameCalls w (advance a).r := by
  simp only [paintGL, bind_ret_iff, call_ret_iff, cout_ret_iff, pure_ret_iff] at h
  obtain ⟨-, sa, ⟨-, rfl⟩, -, sb, rfl, -, sc, ⟨-, rfl⟩, -, sd, ⟨-, rfl⟩, -, se, ⟨-, rfl⟩,
    -, sf, ⟨-, rfl⟩, -, sg, ⟨-, rfl⟩, rfl, rfl⟩ := h
  exact ⟨rfl, by simp [frameCalls]⟩

/-- The statics after `n` frames that all returned are `animAfter n`. -/
theorem renderFrames_ret (env : Env) (w : OpenGL) (n : Nat) :
    ∀ (a : AnimationState) (s s1 : GLState),
      renderFrames env w n s = .ret a s1 → a = animAfter n := by
  induction n with
  | zero =>
    intro a s s1 h
    simp only [renderFrames, pure_ret_iff] at h
    exact h.1
  | succ n ih =>
    intro a s s1 h
    simp only [renderFrames, bind_ret_iff] at h
    obtain ⟨a0, sa, h0, h1⟩ := h
    rw [(paintGL_ret env w a0 a sa s1 h1).1, ih a0 s sa h0]
    rfl

/-- Witness for C3: initialisation and the first frame on `okEnv`. -/
theorem first_frame_witness :
    ∃ w1 s1 s2, initializeGL okEnv (OpenGL.ctor OpenGL.rawZero) GLState.start = .ret w1 s1 ∧
      paintGL okEnv w1 AnimationState.init s1 = .ret ⟨1 / 20, 1 / 20⟩ s2 ∧
      s2.trace = s1.trace ++ frameCalls w1 (1 / 20) := by
  obtain ⟨w1, s1, h⟩ :
      ∃ w1 s1, initializeGL okEnv (OpenGL.ctor OpenGL.rawZero) GLState.start = .ret w1 s1 :=
    ⟨_, _, rfl⟩
  obtain ⟨s2, h2, h3, -⟩ := first_frame okEnv _ w1 _ s1 h (fun _ _ => rfl)
  exact ⟨w1, s1, s2, h, h2, h3⟩

/-- After any completed `initializeGL` on a freshly constructed object the
destructor returns without having made a single driver call. -/
theorem dtor_after_init (env : Env) (raw w1 : OpenGL) (s0 s1 : GLState)
    (hinit : initializeGL env (OpenGL.ctor raw) s0 = .ret w1 s1) :
    OpenGL.dtor env w1 s1 = .ret () s1 := by
  obtain ⟨-, hflag, -, -⟩ := initializeGL_ret env _ w1 s0 s1 hinit
  exact dtor_uninitialized env w1 s1 (by rw [hflag]; rfl)

/-- C4 (the code at the failing input). On `okEnv`, `initializeGL` runs to
completion, the `initialized` flag is still false afterwards, and the
destructor then returns in the state it started in: it issues no delete call
at all, where the claim expects four. -/
theorem dtor_issues_no_delete :
    ∃ w1 s1, initializeGL okEnv (OpenGL.ctor OpenGL.rawZero) GLState.start = .ret w1 s1 ∧
      w1.initialized = false ∧
      OpenGL.dtor okEnv w1 s1 = .ret () s1 ∧
      (s1.trace.filter GLCmd.isDelete = [.glDeleteShader 2, .glDeleteShader 3]) :=
  ⟨_, _, rfl, rfl, rfl, rfl⟩

end GLWidget
